import Mathlib

/-!
Shallow embedding of the State-Machines repository (Python):
  src/server/LRP.py            — protocol model (ModelElement, ASTElement,
                                 Location, RuntimeState)
  src/statemachine_ast/StateMachine.py — AST model (StateMachine, State,
                                 SimpleState, CompositeState, InitialState,
                                 Transition)

Python dicts appearing on the wire are modelled as ordered association
lists `List (String × JValue)`; all dict literals built by the code merge
key-disjoint pieces, so list append models `{**a, **b}` faithfully at
every call site.  Node ids, produced by `uuid.uuid4()` at construction
time, are modelled as plain `String` fields supplied at construction.
Raised Python exceptions are modelled with `Except Err`.
-/

namespace SMSpec

/-- JSON-compatible wire value (the shape of the dicts produced by the
`to_dict` methods). -/
inductive JValue : Type where
  | null : JValue
  | str : String → JValue
  | int : Int → JValue
  | bool : Bool → JValue
  | arr : List JValue → JValue
  | obj : List (String × JValue) → JValue
deriving Repr

/-- A Python `str | None` value on the wire (`None` serializes as null). -/
def optStr : Option String → JValue
  | none => .null
  | some s => .str s

/-- A Python `int | None` value on the wire. -/
def optInt : Option Int → JValue
  | none => .null
  | some n => .int n

/-- Top-level keys of a wire record. -/
def JValue.keys : JValue → List String
  | .obj fields => fields.map (·.1)
  | _ => []

/-- Field access on a wire record (first occurrence; all records built by
the code have pairwise-distinct keys). -/
def JValue.lookup (v : JValue) (k : String) : Option JValue :=
  match v with
  | .obj fields => List.lookup k fields
  | _ => none

/-- `Location` (LRP.py lines 52–61): a source span.  `to_dict` returns
`self.__dict__`, whose insertion order is the assignment order of
`__init__`: line, column, endLine, endColumn. -/
structure Location : Type where
  line : Int
  column : Int
  endLine : Int
  endColumn : Int
deriving Repr, DecidableEq

def Location.to_dict (l : Location) : List (String × JValue) :=
  [("line", .int l.line), ("column", .int l.column),
   ("endLine", .int l.endLine), ("endColumn", .int l.endColumn)]

/-- `ModelElement.construct_dict` (LRP.py lines 21–28).  `id` and `type`
are the element's fields; the three dict arguments are passed by the
subclasses. -/
def ModelElement.construct_dict (id type_ : String)
    (attributes children refs : List (String × JValue)) :
    List (String × JValue) :=
  [("id", .str id), ("type", .str type_),
   ("attributes", .obj attributes), ("children", .obj children),
   ("refs", .obj refs)]

/-- `ASTElement.construct_dict` (LRP.py lines 41–45): the base record,
plus a `location` entry appended when `self.location` is set (the base
record never contains a `location` key, so the Python dict spread is a
plain append). -/
def ASTElement.construct_dict (id type_ : String) (location : Option Location)
    (attributes children refs : List (String × JValue)) :
    List (String × JValue) :=
  match location with
  | none => ModelElement.construct_dict id type_ attributes children refs
  | some l => ModelElement.construct_dict id type_ attributes children refs
      ++ [("location", .obj l.to_dict)]

/-- Python exception raised by the AST model (`raise ValueError('No initial
state.')`, StateMachine.py lines 126 and 132). -/
inductive Err : Type where
  | valueError : String → Err
deriving Repr, DecidableEq

/-- The identity-and-finality view a `Transition` keeps of an endpoint
state: `Transition.to_dict` reads exactly `target.id` and
`target.is_final`, and the adjacency-store model keys states by id.
(In Python the transition holds the state object itself; a direct object
reference cannot be a subterm here because the endpoint's own
`outgoing_transitions` list refers back to the transition.) -/
structure StateRef : Type where
  id : String
  is_final : Bool
deriving Repr, DecidableEq

/-- `Transition` (StateMachine.py lines 157–187): directed edge with the
fields set by `__init__`.  `type` is the constant
`'stateMachine.transition'`. -/
structure Transition : Type where
  id : String
  source : StateRef
  target : StateRef
  input : Option String
  output : Option String
  location : Option Location
deriving Repr, DecidableEq

/-- `Transition.to_dict` (StateMachine.py lines 174–187).  Note the
misspelled attribute key `'ouptut'` in the source (line 183). -/
def Transition.to_dict (t : Transition) : JValue :=
  let refs : List (String × JValue) :=
    if ¬ t.target.is_final then [("target", .str t.target.id)] else []
  .obj (ASTElement.construct_dict t.id "stateMachine.transition" t.location
    [("input", optStr t.input), ("ouptut", optStr t.output)]
    []
    refs)

/- The `State` hierarchy (StateMachine.py lines 31–138) as a tagged tree:
`simple` is `SimpleState`, `composite` is `CompositeState`.  Fields follow
the constructors: a `SimpleState` has an optional `name` and an `is_final`
flag; a `CompositeState` has a required `name`, and its `__init__` pins
`is_final` to `False` and starts with `initial_state = None`.  Both carry
`outgoing_transitions` and the optional source `location`.  `State.states`
is populated only for composites (SimpleState never contains children), so
the `simple` constructor carries none.  The `parent_state` and
`incoming_transitions` back-references, which would close reference cycles,
are modelled separately where an operation reads them (`StateParents` for
`get_depth`, `AdjStore` for the adjacency-wiring operations). -/
mutual
/-- The two concrete `State` shapes, tagged. -/
inductive State : Type where
  | simple (id : String) (name : Option String) (is_final : Bool)
      (outgoing_transitions : List Transition) (location : Option Location) :
      State
  | composite (id : String) (name : String)
      (initial_state : Option InitialState) (states : List State)
      (outgoing_transitions : List Transition) (location : Option Location) :
      State
/-- `InitialState` (StateMachine.py lines 141–154): initial pseudostate,
a pointer to the `target` state entered first (its `parent_state` field is
derived from the target and read nowhere). -/
inductive InitialState : Type where
  | mk (target : State) : InitialState
end

def InitialState.target : InitialState → State
  | .mk t => t

def State.id : State → String
  | .simple id .. => id
  | .composite id .. => id

def State.name : State → Option String
  | .simple _ name .. => name
  | .composite _ name .. => some name

/-- `is_final` as constructed: a `CompositeState.__init__` always passes
`False` (StateMachine.py line 121). -/
def State.is_final : State → Bool
  | .simple _ _ is_final .. => is_final
  | .composite .. => false

def State.outgoing_transitions : State → List Transition
  | .simple _ _ _ outs _ => outs
  | .composite _ _ _ _ outs _ => outs

def State.location : State → Option Location
  | .simple _ _ _ _ loc => loc
  | .composite _ _ _ _ _ loc => loc

def State.states : State → List State
  | .simple .. => []
  | .composite _ _ _ states _ _ => states

mutual
/- `get_nested_initial_state` (StateMachine.py lines 65–67, 102–103,
124–128): a `SimpleState` returns itself; a `CompositeState` raises
`ValueError('No initial state.')` when `initial_state` is unset and
otherwise delegates to the pseudostate. -/
def State.get_nested_initial_state : State → Except Err State
  | s@(.simple ..) => .ok s
  | .composite _ _ none _ _ _ => .error (.valueError "No initial state.")
  | .composite _ _ (some i) _ _ _ => i.get_nested_initial_state

/-- `InitialState.get_nested_initial_state` (StateMachine.py lines
153–154): delegates to the target state. -/
def InitialState.get_nested_initial_state : InitialState → Except Err State
  | .mk target => target.get_nested_initial_state
end

/-- `State.construct_dict` (StateMachine.py lines 75–92): partitions
`outgoing_transitions` on `target.is_final` into the `transitions` and
`final transitions` children buckets, prepends the `name` attribute, and
defers to `ASTElement.construct_dict`.  A `State`'s `type` is the constant
`'stateMachine.state'` (line 44). -/
def State.construct_dict (s : State)
    (attributes children refs : List (String × JValue)) :
    List (String × JValue) :=
  let transitions : List Transition :=
    s.outgoing_transitions.filter (fun transition => ! transition.target.is_final)
  let final_transitions : List Transition :=
    s.outgoing_transitions.filter (fun transition => transition.target.is_final)
  ASTElement.construct_dict s.id "stateMachine.state" s.location
    ([("name", optStr s.name)] ++ attributes)
    ([("transitions", .arr (transitions.map Transition.to_dict)),
      ("final transitions", .arr (final_transitions.map Transition.to_dict))]
      ++ children)
    refs

mutual
/-- `SimpleState.to_dict` (lines 105–110) and `CompositeState.to_dict`
(lines 130–138): a simple state passes three empty dicts; a composite
raises `ValueError('No initial state.')` when `initial_state` is unset and
otherwise adds its serialized children `states` and the non-recursive
`refs.initialState` pointer `initial_state.target.id`. -/
def State.to_dict : State → Except Err JValue
  | s@(.simple ..) => .ok (.obj (s.construct_dict [] [] []))
  | .composite _ _ none _ _ _ => .error (.valueError "No initial state.")
  | s@(.composite _ _ (some i) states _ _) =>
      match State.states_to_dict states with
      | .error e => .error e
      | .ok kids => .ok (.obj (s.construct_dict []
          [("states", .arr kids)]
          [("initialState", .str i.target.id)]))

/-- The Python `list(map(lambda state: state.to_dict(), states))`:
left-to-right, the first raised exception propagates. -/
def State.states_to_dict : List State → Except Err (List JValue)
  | [] => .ok []
  | s :: rest =>
      match s.to_dict with
      | .error e => .error e
      | .ok d =>
          match State.states_to_dict rest with
          | .error e => .error e
          | .ok ds => .ok (d :: ds)
end

/-- `StateMachine` (StateMachine.py lines 8–28): root AST node with type
`'stateMachine.stateMachine'`. -/
structure StateMachine : Type where
  id : String
  name : String
  initial_state : Option InitialState
  states : List State
  location : Option Location

/-- `StateMachine.to_dict` (lines 23–28): serializes the top-level states
and emits `refs.initialState` as `''` when `initial_state` is `None`, else
as `initial_state.target.id`. -/
def StateMachine.to_dict (m : StateMachine) : Except Err JValue :=
  match State.states_to_dict m.states with
  | .error e => .error e
  | .ok kids => .ok (.obj (ASTElement.construct_dict m.id
      "stateMachine.stateMachine" m.location
      [("name", .str m.name)]
      [("states", .arr kids)]
      [("initialState", .str (match m.initial_state with
          | none => ""
          | some i => i.target.id))]))

/-- The `Runtime`-shaped object consumed by `RuntimeState.__init__`
(LRP.py lines 236–241): the fields that constructor reads.
`current_state` is kept as the id/finality view, the only projections
`RuntimeState.to_dict` reads of it. -/
structure Runtime : Type where
  inputs : List String
  next_consumed_input_index : Option Int
  current_state : StateRef
  next_transition : Option Transition
  outputs : List String

/-- `RuntimeState` (LRP.py lines 225–241): snapshot fields, with type
`'stateMachine.runtimeState'`. -/
structure RuntimeState : Type where
  id : String
  inputs : List String
  next_consumed_input_index : Option Int
  current_state : StateRef
  outputs : List String

/-- `RuntimeState.__init__` (LRP.py lines 236–241): copies the runtime's
fields, except that `next_consumed_input_index` is forced to `None` when
`runtime.next_transition` is `None`.  The fresh `uuid4` id is a
parameter. -/
def RuntimeState.ofRuntime (id : String) (runtime : Runtime) : RuntimeState :=
  { id := id
    inputs := runtime.inputs
    next_consumed_input_index :=
      match runtime.next_transition with
      | none => none
      | some _ => runtime.next_consumed_input_index
    current_state := runtime.current_state
    outputs := runtime.outputs }

/-- `RuntimeState.to_dict` (LRP.py lines 243–266): on a final current
state, the sentinel attribute `currentState: 'FINAL'` with empty refs;
otherwise `refs.currentState` holds the live state's id. -/
def RuntimeState.to_dict (r : RuntimeState) : JValue :=
  if r.current_state.is_final then
    .obj (ModelElement.construct_dict r.id "stateMachine.runtimeState"
      [("inputs", .arr (r.inputs.map .str)),
       ("nextConsumedInputIndex", optInt r.next_consumed_input_index),
       ("outputs", .arr (r.outputs.map .str)),
       ("currentState", .str "FINAL")]
      [] [])
  else
    .obj (ModelElement.construct_dict r.id "stateMachine.runtimeState"
      [("inputs", .arr (r.inputs.map .str)),
       ("nextConsumedInputIndex", optInt r.next_consumed_input_index),
       ("outputs", .arr (r.outputs.map .str))]
      []
      [("currentState", .str r.current_state.id)])

def State.isSimple : State → Bool
  | .simple .. => true
  | .composite .. => false

/-- The `initial_state` field of a composite, as set after construction. -/
def State.initial_state : State → Option InitialState
  | .simple .. => none
  | .composite _ _ i _ _ _ => i

/- ------------ Adjacency wiring (StateMachine.py lines 52–63) ------------
The transition adjacency lists `outgoing_transitions` / `incoming_transitions`
are the one mutable part of the AST.  They are modelled as a store mapping a
state's id to its two lists; `create_transition` and `add_transitions` are
state-passing versions of the two Python mutators. -/

/-- The `outgoing_transitions` and `incoming_transitions` lists of every
state, keyed by state id (ids are unique per session). -/
structure AdjStore : Type where
  outgoing : String → List Transition
  incoming : String → List Transition

/-- All adjacency lists empty, as right after `State.__init__`. -/
def AdjStore.empty : AdjStore :=
  { outgoing := fun _ => [], incoming := fun _ => [] }

/-- `State.create_transition` (StateMachine.py lines 59–63), `self` being
the state `source`: allocates `Transition(self, target, input, output,
location)` (with the fresh `uuid4` id passed as `tid`) and appends it to
`self.outgoing_transitions` and to `target.incoming_transitions`. -/
def AdjStore.create_transition (st : AdjStore) (source target : StateRef)
    (tid : String) (input output : Option String)
    (location : Option Location) : AdjStore :=
  let transition : Transition :=
    { id := tid, source := source, target := target,
      input := input, output := output, location := location }
  { outgoing := fun sid =>
      if sid = source.id then st.outgoing sid ++ [transition]
      else st.outgoing sid
    incoming := fun sid =>
      if sid = target.id then st.incoming sid ++ [transition]
      else st.incoming sid }

/-- `State.add_transitions` (StateMachine.py lines 52–57), `self` being
the state with id `selfId`: appends every given transition to
`self.outgoing_transitions` (whether or not `self` is its source), then
appends each one to its own target's `incoming_transitions`. -/
def AdjStore.add_transitions (st : AdjStore) (selfId : String)
    (ts : List Transition) : AdjStore :=
  { outgoing := fun sid =>
      if sid = selfId then st.outgoing sid ++ ts else st.outgoing sid
    incoming := fun sid =>
      st.incoming sid ++ ts.filter (fun t => t.target.id == sid) }

/-- One `create_transition(source, target, input, output, location)` call,
with the `uuid4` id the allocated transition receives. -/
structure TransitionOp : Type where
  source : StateRef
  target : StateRef
  tid : String
  input : Option String
  output : Option String
  location : Option Location

/-- The `Transition` object a `create_transition` call allocates. -/
def TransitionOp.transition (op : TransitionOp) : Transition :=
  { id := op.tid, source := op.source, target := op.target,
    input := op.input, output := op.output, location := op.location }

/-- Perform one `create_transition` call on the store. -/
def createStep (st : AdjStore) (op : TransitionOp) : AdjStore :=
  st.create_transition op.source op.target op.tid op.input op.output
    op.location

/-- A sequence of `create_transition` calls on a freshly built tree
(all adjacency lists start empty). -/
def runCreates (ops : List TransitionOp) : AdjStore :=
  ops.foldl createStep AdjStore.empty

/- ------------ parent_state chains and get_depth ------------
`State.get_depth` (StateMachine.py lines 69–73) reads only the chain of
`parent_state` back-references.  In the object graph those are references
into the containment tree; the spec's precondition that they are acyclic
makes every chain finite, which is exactly what this upward view
captures. -/

/-- A state as `get_depth` sees it: nothing but its (acyclic, hence
finite) chain of `parent_state` links. -/
inductive StateParents : Type where
  | mk (parent_state : Option StateParents) : StateParents

/-- `State.get_depth` (StateMachine.py lines 69–73): `0` when
`parent_state is None`, else `parent_state.get_depth() + 1`. -/
def StateParents.get_depth : StateParents → Nat
  | .mk none => 0
  | .mk (some parent) => parent.get_depth + 1

/-- `get_depth` with an explicit recursion budget, mirroring the Python
call stack: `none` models the recursion never returning (stack
exhaustion). -/
def StateParents.get_depth_fuel : Nat → StateParents → Option Nat
  | 0, _ => none
  | _ + 1, .mk none => some 0
  | fuel + 1, .mk (some parent) =>
      (StateParents.get_depth_fuel fuel parent).map (· + 1)

/-- `get_nested_initial_state` with an explicit recursion budget, one
unit per composite hop of the initial-pseudostate chain: `none` models the
recursion never returning. -/
def State.get_nested_initial_state_fuel :
    Nat → State → Option (Except Err State)
  | 0, _ => none
  | _ + 1, s@(.simple ..) => some (.ok s)
  | _ + 1, .composite _ _ none _ _ _ =>
      some (.error (.valueError "No initial state."))
  | fuel + 1, .composite _ _ (some (.mk target)) _ _ _ =>
      State.get_nested_initial_state_fuel fuel target

/-- The initial-pseudostate chain of a state is fully set and reaches the
state `t`: a `SimpleState` reaches itself, and a `CompositeState` whose
`initial_state` is set reaches whatever its pseudostate's target
reaches. -/
inductive InitialChain : State → State → Prop where
  | simple (id : String) (name : Option String) (is_final : Bool)
      (outs : List Transition) (loc : Option Location) :
      InitialChain (.simple id name is_final outs loc)
        (.simple id name is_final outs loc)
  | composite (id name : String) (target : State) (states : List State)
      (outs : List Transition) (loc : Option Location) (t : State) :
      InitialChain target t →
      InitialChain (.composite id name (some (.mk target)) states outs loc) t

/-- Access into the `attributes` mapping of a wire record. -/
def JValue.attrLookup (v : JValue) (k : String) : Option JValue :=
  (v.lookup "attributes").bind (fun a => a.lookup k)

/-- Access into the `children` mapping of a wire record. -/
def JValue.childLookup (v : JValue) (k : String) : Option JValue :=
  (v.lookup "children").bind (fun c => c.lookup k)

/-- Access into the `refs` mapping of a wire record. -/
def JValue.refLookup (v : JValue) (k : String) : Option JValue :=
  (v.lookup "refs").bind (fun r => r.lookup k)

mutual
/-- Length of a state's initial-pseudostate resolution chain (the measure
that bounds the recursion depth of `get_nested_initial_state`). -/
def State.initDepth : State → Nat
  | .simple .. => 0
  | .composite _ _ none _ _ _ => 0
  | .composite _ _ (some i) _ _ _ => i.initDepth + 1

/-- Chain length as seen from an initial pseudostate. -/
def InitialState.initDepth : InitialState → Nat
  | .mk target => target.initDepth
end

/- ------------ Concrete values used by witness theorems ------------ -/

/-- A transition to a final state, carrying both an input and an output. -/
def finalTransitionW : Transition :=
  { id := "t-final", source := { id := "A", is_final := false },
    target := { id := "B", is_final := true },
    input := some "x", output := some "y", location := none }

/-- A transition to a non-final state. -/
def plainTransitionW : Transition :=
  { id := "t-plain", source := { id := "A", is_final := false },
    target := { id := "C", is_final := false },
    input := some "u", output := none, location := none }

/-- A simple state with one final-targeted and one non-final-targeted
outgoing transition. -/
def simpleStateW : State :=
  .simple "A" (some "A") false [finalTransitionW, plainTransitionW] none

/-- The wire record `simpleStateW` serializes to. -/
def simpleStateWDict : JValue :=
  match simpleStateW.to_dict with
  | .ok d => d
  | .error _ => .null

/-- A state machine with one simple state and no initial state set. -/
def machineW : StateMachine :=
  { id := "m", name := "M", initial_state := none,
    states := [simpleStateW], location := none }

/-- The wire record `machineW` serializes to. -/
def machineWDict : JValue :=
  match machineW.to_dict with
  | .ok d => d
  | .error _ => .null

/-- A two-level composite whose initial chain ends at a simple state. -/
def nestedCompositeW : State :=
  .composite "c1" "C1"
    (some (.mk (.composite "c2" "C2"
      (some (.mk (.simple "s3" (some "S3") false [] none))) [] [] none)))
    [] [] none

/-- A `create_transition` call wiring A→B. -/
def op1W : TransitionOp :=
  { source := { id := "A", is_final := false },
    target := { id := "B", is_final := false },
    tid := "t1", input := some "a", output := none, location := none }

/-- A `create_transition` call wiring B→A. -/
def op2W : TransitionOp :=
  { source := { id := "B", is_final := false },
    target := { id := "A", is_final := false },
    tid := "t2", input := none, output := some "b", location := none }

/-- Two distinct `create_transition` calls: A→B then B→A. -/
def createOpsW : List TransitionOp := [op1W, op2W]

/-- A transition carrying a source location. -/
def locTransitionW : Transition :=
  { id := "tl", source := { id := "A", is_final := false },
    target := { id := "C", is_final := false },
    input := none, output := none,
    location := some { line := 1, column := 2, endLine := 3, endColumn := 4 } }

/- ------------------------ Theorems ------------------------ -/

/-- C1: `get_nested_initial_state` on a `SimpleState` returns that state
itself, and on any state whose initial-pseudostate chain is fully set and
reaches the state `t` (at any nesting depth) it returns exactly `t`, a
`SimpleState`. -/
theorem getNestedInitialState_resolves_chain :
    (∀ (id : String) (name : Option String) (fin : Bool)
        (outs : List Transition) (loc : Option Location),
        State.get_nested_initial_state (.simple id name fin outs loc)
          = .ok (.simple id name fin outs loc)) ∧
    (∀ s t : State, InitialChain s t →
        t.isSimple = true ∧ s.get_nested_initial_state = .ok t) := by
  refine ⟨fun _ _ _ _ _ => rfl, fun s t h => ?_⟩
  induction h with
  | simple id name fin outs loc => exact ⟨rfl, rfl⟩
  | composite id name target states outs loc t h ih =>
      refine ⟨ih.1, ?_⟩
      simp only [State.get_nested_initial_state,
        InitialState.get_nested_initial_state]
      exact ih.2

/-- Witness for C1 at a two-level composite chain. -/
theorem getNestedInitialState_resolves_chain_witness :
    (State.simple "s3" (some "S3") false [] none).isSimple = true ∧
    State.get_nested_initial_state nestedCompositeW
      = .ok (.simple "s3" (some "S3") false [] none) :=
  getNestedInitialState_resolves_chain.2 nestedCompositeW
    (.simple "s3" (some "S3") false [] none)
    (InitialChain.composite _ _ _ _ _ _ _
      (InitialChain.composite _ _ _ _ _ _ _
        (InitialChain.simple _ _ _ _ _)))

/-- C3: a serialized `Transition` carries a `refs.target` entry exactly
when its target is not final, and that entry is the target's id. -/
theorem transition_refs_target_iff_not_final (t : Transition) :
    t.to_dict.refLookup "target"
      = if t.target.is_final then none else some (.str t.target.id) := by
  rcases t with ⟨id, source, ⟨tid, tfin⟩, input, output, location⟩
  cases tfin <;> cases location <;> rfl

/-- C5: a serialized `RuntimeState` carries the `FINAL` sentinel attribute
with empty refs when the current state is final, and otherwise no
`currentState` attribute but a `refs.currentState` holding the live
state's id; `inputs`, `nextConsumedInputIndex` and `outputs` are attributes
in both cases. -/
theorem runtimeState_to_dict_contract (r : RuntimeState) :
    r.to_dict.attrLookup "currentState"
        = (if r.current_state.is_final then some (.str "FINAL") else none) ∧
    r.to_dict.lookup "refs"
        = some (.obj (if r.current_state.is_final then []
            else [("currentState", .str r.current_state.id)])) ∧
    r.to_dict.attrLookup "inputs" = some (.arr (r.inputs.map .str)) ∧
    r.to_dict.attrLookup "nextConsumedInputIndex"
        = some (optInt r.next_consumed_input_index) ∧
    r.to_dict.attrLookup "outputs" = some (.arr (r.outputs.map .str)) := by
  rcases r with ⟨id, inputs, idx, ⟨sid, fin⟩, outputs⟩
  cases fin <;> exact ⟨rfl, rfl, rfl, rfl, rfl⟩

/-- C7: the attributes of a serialized `Transition` are exactly the two
keys `input` and `ouptut` — the source (StateMachine.py line 183)
misspells the documented `output` key, so `attributes.output` is absent,
as evaluation at `finalTransitionW` (input `"x"`, output `"y"`) shows. -/
theorem transition_attributes_output_key_misspelled :
    (∀ t : Transition, t.to_dict.lookup "attributes"
        = some (.obj [("input", optStr t.input),
                      ("ouptut", optStr t.output)])) ∧
    finalTransitionW.to_dict.attrLookup "input" = some (.str "x") ∧
    finalTransitionW.to_dict.attrLookup "ouptut" = some (.str "y") ∧
    finalTransitionW.to_dict.attrLookup "output" = none := by
  refine ⟨fun t => ?_, rfl, rfl, rfl⟩
  rcases t with ⟨id, source, ⟨tid, tfin⟩, input, output, location⟩
  cases tfin <;> cases location <;> rfl

/-- `get_nested_initial_state` returns (rather than recursing forever) as
soon as the recursion budget exceeds the initial-chain length. -/
theorem get_nested_initial_state_fuel_sufficient :
    ∀ (n : Nat) (s : State), s.initDepth < n →
      State.get_nested_initial_state_fuel n s
        = some s.get_nested_initial_state := by
  intro n
  induction n with
  | zero => intro s h; exact absurd h (Nat.not_lt_zero _)
  | succ n ih =>
      intro s h
      match s with
      | .simple .. => rfl
      | .composite _ _ none _ _ _ => rfl
      | .composite id nm (some (.mk target)) sts outs loc =>
          have hd : State.initDepth
              (.composite id nm (some (.mk target)) sts outs loc)
              = target.initDepth + 1 := rfl
          rw [hd] at h
          have hlt : target.initDepth < n := by omega
          show State.get_nested_initial_state_fuel n target
              = some (State.get_nested_initial_state
                  (.composite id nm (some (.mk target)) sts outs loc))
          rw [ih target hlt]
          rfl

/-- `get_depth` returns as soon as the recursion budget exceeds the
depth. -/
theorem get_depth_fuel_sufficient :
    ∀ (n : Nat) (p : StateParents), p.get_depth < n →
      StateParents.get_depth_fuel n p = some p.get_depth := by
  intro n
  induction n with
  | zero => intro p h; exact absurd h (Nat.not_lt_zero _)
  | succ n ih =>
      intro p h
      match p with
      | .mk none => rfl
      | .mk (some parent) =>
          have hd : StateParents.get_depth (.mk (some parent))
              = parent.get_depth + 1 := rfl
          rw [hd] at h
          have hlt : parent.get_depth < n := by omega
          show (StateParents.get_depth_fuel n parent).map (· + 1)
              = some (StateParents.get_depth (.mk (some parent)))
          rw [ih parent hlt]
          rfl

/-- C9: on every (acyclic, hence representable) state, the recursive
resolution of `get_nested_initial_state` finishes within a finite
recursion budget, and `get_depth` finishes within a finite budget and
satisfies its defining equations (`0` with no parent, parent's depth plus
one otherwise), returning a plain `Nat` with no failure mode. -/
theorem resolution_and_depth_terminate :
    (∀ s : State, ∃ n : Nat,
        State.get_nested_initial_state_fuel n s
          = some s.get_nested_initial_state) ∧
    (∀ p : StateParents, ∃ n : Nat,
        StateParents.get_depth_fuel n p = some p.get_depth) ∧
    StateParents.get_depth (.mk none) = 0 ∧
    (∀ p : StateParents,
        StateParents.get_depth (.mk (some p)) = p.get_depth + 1) :=
  ⟨fun s => ⟨s.initDepth + 1,
      get_nested_initial_state_fuel_sufficient _ s (Nat.lt_succ_self _)⟩,
   fun p => ⟨p.get_depth + 1,
      get_depth_fuel_sufficient _ p (Nat.lt_succ_self _)⟩,
   rfl, fun _ => rfl⟩

/-- C10: the snapshot constructor forces `next_consumed_input_index` to
`None` whenever the runtime has no pending transition, regardless of the
runtime's own index, and copies it verbatim otherwise; the serialized
`nextConsumedInputIndex` attribute follows suit. -/
theorem runtimeState_index_gated_by_next_transition
    (id : String) (runtime : Runtime) :
    (RuntimeState.ofRuntime id runtime).next_consumed_input_index
        = (match runtime.next_transition with
            | none => none
            | some _ => runtime.next_consumed_input_index) ∧
    (RuntimeState.ofRuntime id runtime).to_dict.attrLookup
        "nextConsumedInputIndex"
        = some (match runtime.next_transition with
            | none => JValue.null
            | some _ => optInt runtime.next_consumed_input_index) := by
  rcases runtime with ⟨inputs, idx, ⟨sid, fin⟩, ntr, outputs⟩
  cases ntr <;> cases fin <;> exact ⟨rfl, rfl⟩

/-- Filtering a list on a predicate and on its negation splits every
occurrence of every element between the two results. -/
theorem count_filter_add_count_filter_not {α : Type} [DecidableEq α]
    (p : α → Bool) (l : List α) (a : α) :
    (l.filter p).count a + (l.filter (fun x => ! p x)).count a
      = l.count a := by
  have hzero : ∀ q : α → Bool, q a = false → (l.filter q).count a = 0 := by
    intro q hq
    rw [List.count_eq_zero]
    intro hm
    rw [List.mem_filter] at hm
    simp [hq] at hm
  cases hpa : p a
  · rw [hzero p hpa, List.count_filter (by simp [hpa])]
    omega
  · rw [List.count_filter hpa, hzero (fun x => ! p x) (by simp [hpa])]
    omega

/-- C2: in a successfully serialized `State` record, the
`children.transitions` and `children["final transitions"]` buckets are the
images of a stable partition of `outgoing_transitions` on
`target.is_final`: both underlying transition lists are order-preserving
sublists of `outgoing_transitions`, every occurrence of an outgoing
transition lands in exactly one of them (final-targeted ones in the final
bucket, the others in the plain bucket), and none is duplicated. -/
theorem state_children_partition_outgoing (s : State) (d : JValue)
    (h : s.to_dict = .ok d) :
    d.childLookup "transitions"
        = some (.arr ((s.outgoing_transitions.filter
            (fun t => ! t.target.is_final)).map Transition.to_dict)) ∧
    d.childLookup "final transitions"
        = some (.arr ((s.outgoing_transitions.filter
            (fun t => t.target.is_final)).map Transition.to_dict)) ∧
    (s.outgoing_transitions.filter
        (fun t => ! t.target.is_final)).Sublist s.outgoing_transitions ∧
    (s.outgoing_transitions.filter
        (fun t => t.target.is_final)).Sublist s.outgoing_transitions ∧
    (∀ t : Transition,
        (s.outgoing_transitions.filter
            (fun t' => ! t'.target.is_final)).count t
          + (s.outgoing_transitions.filter
              (fun t' => t'.target.is_final)).count t
          = s.outgoing_transitions.count t) ∧
    (∀ t ∈ s.outgoing_transitions,
        (t ∈ s.outgoing_transitions.filter
            (fun t' => ! t'.target.is_final) ↔ t.target.is_final = false) ∧
        (t ∈ s.outgoing_transitions.filter
            (fun t' => t'.target.is_final) ↔ t.target.is_final = true)) := by
  have hpart : ∀ t : Transition,
      (s.outgoing_transitions.filter
          (fun t' => ! t'.target.is_final)).count t
        + (s.outgoing_transitions.filter
            (fun t' => t'.target.is_final)).count t
        = s.outgoing_transitions.count t := by
    intro t
    have hc := count_filter_add_count_filter_not
      (fun t' : Transition => t'.target.is_final) s.outgoing_transitions t
    omega
  have hmem : ∀ t ∈ s.outgoing_transitions,
      (t ∈ s.outgoing_transitions.filter
          (fun t' => ! t'.target.is_final) ↔ t.target.is_final = false) ∧
      (t ∈ s.outgoing_transitions.filter
          (fun t' => t'.target.is_final) ↔ t.target.is_final = true) := by
    intro t ht
    constructor <;> rw [List.mem_filter] <;>
      cases hf : t.target.is_final <;> simp [ht, hf]
  have hlook : d.childLookup "transitions"
        = some (.arr ((s.outgoing_transitions.filter
            (fun t => ! t.target.is_final)).map Transition.to_dict)) ∧
      d.childLookup "final transitions"
        = some (.arr ((s.outgoing_transitions.filter
            (fun t => t.target.is_final)).map Transition.to_dict)) := by
    rcases s with ⟨id, name, fin, outs, loc⟩ |
        ⟨id, name, initial, states, outs, loc⟩
    · simp only [State.to_dict, Except.ok.injEq] at h
      subst h
      cases loc <;> exact ⟨rfl, rfl⟩
    · rcases initial with _ | ⟨target⟩
      · exact absurd h (by simp [State.to_dict])
      · rcases hk : State.states_to_dict states with e | kids <;>
          simp only [State.to_dict, hk, Except.ok.injEq, reduceCtorEq] at h
        subst h
        cases loc <;> exact ⟨rfl, rfl⟩
  exact ⟨hlook.1, hlook.2, List.filter_sublist _, List.filter_sublist _,
    hpart, hmem⟩

/-- Witness for C2 at `simpleStateW`, whose two outgoing transitions split
one into each bucket. -/
theorem state_children_partition_outgoing_witness :
    simpleStateWDict.childLookup "transitions"
        = some (.arr ((simpleStateW.outgoing_transitions.filter
            (fun t => ! t.target.is_final)).map Transition.to_dict)) ∧
    simpleStateWDict.childLookup "final transitions"
        = some (.arr ((simpleStateW.outgoing_transitions.filter
            (fun t => t.target.is_final)).map Transition.to_dict)) :=
  ⟨(state_children_partition_outgoing simpleStateW simpleStateWDict rfl).1,
   (state_children_partition_outgoing simpleStateW simpleStateWDict
      rfl).2.1⟩

/-- C4: a `StateMachine` whose `initial_state` is unset still serializes
(whenever its states do) and emits `refs.initialState = ""`, with the
target's id emitted when it is set; a `CompositeState` whose
`initial_state` is unset instead raises `ValueError('No initial state.')`
— the error the spec's taxonomy names `MalformedTreeError` — and produces
no record. -/
theorem stateMachine_vs_composite_missing_initial :
    (∀ (m : StateMachine) (kids : List JValue),
        State.states_to_dict m.states = .ok kids →
        ∃ d : JValue, m.to_dict = .ok d ∧
          d.refLookup "initialState"
            = some (.str (match m.initial_state with
                | none => ""
                | some i => i.target.id))) ∧
    (∀ (id name : String) (states : List State) (outs : List Transition)
        (loc : Option Location),
        State.to_dict (.composite id name none states outs loc)
          = .error (.valueError "No initial state.")) := by
  refine ⟨fun m kids hk => ?_, fun _ _ _ _ _ => rfl⟩
  refine ⟨.obj (ASTElement.construct_dict m.id "stateMachine.stateMachine"
      m.location
      [("name", .str m.name)]
      [("states", .arr kids)]
      [("initialState", .str (match m.initial_state with
          | none => ""
          | some i => i.target.id))]), ?_, ?_⟩
  · rw [StateMachine.to_dict, hk]
  · rcases m.location with _ | l <;> rfl

/-- Witness for C4: `machineW` (initial unset, one serializable state)
serializes with `refs.initialState = ""`, while an initial-less composite
errors. -/
theorem stateMachine_vs_composite_missing_initial_witness :
    (∃ d : JValue, machineW.to_dict = .ok d ∧
        d.refLookup "initialState" = some (.str "")) ∧
    State.to_dict (.composite "c0" "C0" none [] [] none)
      = .error (.valueError "No initial state.") :=
  ⟨stateMachine_vs_composite_missing_initial.1 machineW
      [simpleStateWDict] rfl,
   stateMachine_vs_composite_missing_initial.2 "c0" "C0" [] [] none⟩

/-- C6: every wire record carries exactly the five top-level keys `id`,
`type`, `attributes`, `children`, `refs`; an AST element whose `location`
is set carries the additional sixth key `location`, holding the four
integers `line`, `column`, `endLine`, `endColumn`; one without a location,
and the non-AST `RuntimeState`, carries exactly the five. -/
theorem wire_record_top_level_keys :
    (∀ (id type_ : String) (a c r : List (String × JValue)),
        (JValue.obj (ModelElement.construct_dict id type_ a c r)).keys
          = ["id", "type", "attributes", "children", "refs"]) ∧
    (∀ (id type_ : String) (a c r : List (String × JValue)),
        (JValue.obj (ASTElement.construct_dict id type_ none a c r)).keys
          = ["id", "type", "attributes", "children", "refs"]) ∧
    (∀ (id type_ : String) (l : Location) (a c r : List (String × JValue)),
        (JValue.obj (ASTElement.construct_dict id type_ (some l) a c r)).keys
          = ["id", "type", "attributes", "children", "refs", "location"] ∧
        (JValue.obj (ASTElement.construct_dict id type_ (some l) a c
            r)).lookup "location" = some (.obj l.to_dict) ∧
        (JValue.obj l.to_dict).keys
          = ["line", "column", "endLine", "endColumn"] ∧
        (JValue.obj l.to_dict).lookup "line" = some (.int l.line) ∧
        (JValue.obj l.to_dict).lookup "column" = some (.int l.column) ∧
        (JValue.obj l.to_dict).lookup "endLine" = some (.int l.endLine) ∧
        (JValue.obj l.to_dict).lookup "endColumn"
          = some (.int l.endColumn)) ∧
    (∀ t : Transition, t.to_dict.keys
        = (match t.location with
            | none => ["id", "type", "attributes", "children", "refs"]
            | some _ =>
                ["id", "type", "attributes", "children", "refs",
                 "location"])) ∧
    (∀ (s : State) (d : JValue), s.to_dict = .ok d →
        d.keys = (match s.location with
            | none => ["id", "type", "attributes", "children", "refs"]
            | some _ =>
                ["id", "type", "attributes", "children", "refs",
                 "location"])) ∧
    (∀ (m : StateMachine) (d : JValue), m.to_dict = .ok d →
        d.keys = (match m.location with
            | none => ["id", "type", "attributes", "children", "refs"]
            | some _ =>
                ["id", "type", "attributes", "children", "refs",
                 "location"])) ∧
    (∀ r : RuntimeState, r.to_dict.keys
        = ["id", "type", "attributes", "children", "refs"]) := by
  refine ⟨fun _ _ _ _ _ => rfl, fun _ _ _ _ _ => rfl,
    fun _ _ _ _ _ _ => ⟨rfl, rfl, rfl, rfl, rfl, rfl, rfl⟩,
    fun t => ?_, fun s d h => ?_, fun m d h => ?_, fun r => ?_⟩
  · rcases t with ⟨id, source, tgt, input, output, location⟩
    rcases tgt with ⟨tid, tfin⟩
    cases tfin <;> cases location <;> rfl
  · rcases s with ⟨id, name, fin, outs, loc⟩ |
        ⟨id, name, initial, states, outs, loc⟩
    · simp only [State.to_dict, Except.ok.injEq] at h
      subst h
      cases loc <;> rfl
    · rcases initial with _ | ⟨target⟩
      · exact absurd h (by simp [State.to_dict])
      · rcases hk : State.states_to_dict states with e | kids <;>
          simp only [State.to_dict, hk, Except.ok.injEq, reduceCtorEq] at h
        subst h
        cases loc <;> rfl
  · rcases m with ⟨id, name, initial, states, loc⟩
    rcases hk : State.states_to_dict states with e | kids <;>
      simp only [StateMachine.to_dict, hk, Except.ok.injEq,
        reduceCtorEq] at h
    subst h
    cases loc <;> rfl
  · rcases r with ⟨id, inputs, idx, ⟨sid, fin⟩, outputs⟩
    cases fin <;> rfl

/-- Witness for C6 at `simpleStateW` (no location, five keys) and at a
located transition (six keys). -/
theorem wire_record_top_level_keys_witness :
    simpleStateWDict.keys
      = ["id", "type", "attributes", "children", "refs"] ∧
    locTransitionW.to_dict.keys
      = ["id", "type", "attributes", "children", "refs", "location"] :=
  ⟨wire_record_top_level_keys.2.2.2.2.1 simpleStateW simpleStateWDict rfl,
   wire_record_top_level_keys.2.2.2.1 locTransitionW⟩

/-- C8 counterexample: `create_transition` is not the only operation that
mutates transition adjacency lists — `add_transitions` (StateMachine.py
lines 52–57) changes a state's `outgoing_transitions` too, and can even
append a transition to the outgoing list of a state (`"B"`) that is not
the transition's source (`"A"`). -/
theorem add_transitions_also_mutates_adjacency :
    (AdjStore.empty.add_transitions "B" [plainTransitionW]).outgoing "B"
        = [plainTransitionW] ∧
    plainTransitionW.source.id = "A" ∧
    (AdjStore.empty.add_transitions "B" [plainTransitionW]).outgoing "B"
      ≠ AdjStore.empty.outgoing "B" := by
  refine ⟨rfl, rfl, ?_⟩
  simp [AdjStore.add_transitions, AdjStore.empty]

/-- One `create_transition` call appends the allocated transition to its
source's outgoing list and its target's incoming list. -/
theorem createStep_eq (st : AdjStore) (op : TransitionOp) :
    createStep st op =
      { outgoing := fun sid =>
          if sid = op.source.id then st.outgoing sid ++ [op.transition]
          else st.outgoing sid,
        incoming := fun sid =>
          if sid = op.target.id then st.incoming sid ++ [op.transition]
          else st.incoming sid } := rfl

/-- Count change in an outgoing list across one `create_transition`. -/
theorem createStep_outgoing_count (st : AdjStore) (op : TransitionOp)
    (t : Transition) (sid : String) :
    ((createStep st op).outgoing sid).count t
      = (st.outgoing sid).count t
        + (if sid = op.source.id
            then (if op.transition = t then 1 else 0) else 0) := by
  rw [createStep_eq]
  by_cases h1 : sid = op.source.id <;>
    simp [h1, List.count_append, List.count_singleton']

/-- Count change in an incoming list across one `create_transition`. -/
theorem createStep_incoming_count (st : AdjStore) (op : TransitionOp)
    (t : Transition) (sid : String) :
    ((createStep st op).incoming sid).count t
      = (st.incoming sid).count t
        + (if sid = op.target.id
            then (if op.transition = t then 1 else 0) else 0) := by
  rw [createStep_eq]
  by_cases h1 : sid = op.target.id <;>
    simp [h1, List.count_append, List.count_singleton']

/-- Occurrences of a transition in an outgoing list after a run of
`create_transition` calls: each call appends its fresh transition to
exactly its source's list. -/
theorem foldl_create_outgoing_count (ops : List TransitionOp)
    (st : AdjStore) (t : Transition) (sid : String) :
    ((ops.foldl createStep st).outgoing sid).count t
      = (st.outgoing sid).count t
        + (if sid = t.source.id
            then (ops.map TransitionOp.transition).count t else 0) := by
  induction ops generalizing st with
  | nil => simp
  | cons op rest ih =>
      rw [List.foldl_cons, ih, createStep_outgoing_count, List.map_cons,
        List.count_cons]
      by_cases h2 : op.transition = t
      · have hs : op.source.id = t.source.id := by
          rw [← h2]
          rfl
        rw [hs]
        simp only [h2, eq_self_iff_true, if_true, beq_self_eq_true]
        split_ifs <;> omega
      · simp only [h2, if_false, beq_iff_eq]
        split_ifs <;> omega

/-- Occurrences of a transition in an incoming list after a run of
`create_transition` calls: each call appends its fresh transition to
exactly its target's list. -/
theorem foldl_create_incoming_count (ops : List TransitionOp)
    (st : AdjStore) (t : Transition) (sid : String) :
    ((ops.foldl createStep st).incoming sid).count t
      = (st.incoming sid).count t
        + (if sid = t.target.id
            then (ops.map TransitionOp.transition).count t else 0) := by
  induction ops generalizing st with
  | nil => simp
  | cons op rest ih =>
      rw [List.foldl_cons, ih, createStep_incoming_count, List.map_cons,
        List.count_cons]
      by_cases h2 : op.transition = t
      · have hs : op.target.id = t.target.id := by
          rw [← h2]
          rfl
        rw [hs]
        simp only [h2, eq_self_iff_true, if_true, beq_self_eq_true]
        split_ifs <;> omega
      · simp only [h2, if_false, beq_iff_eq]
        split_ifs <;> omega

/-- C8 (amended): after any sequence of `create_transition` calls on
freshly initialized states, provided the allocated transitions are
pairwise distinct (fresh `uuid4` ids), every created transition appears
exactly once in its source's `outgoing_transitions`, exactly once in its
target's `incoming_transitions`, and in no other state's lists.
(`create_transition` is not the *only* mutator of adjacency lists:
`add_transitions` also mutates them, see the counterexample.) -/
theorem create_transition_sequences_invariant (ops : List TransitionOp)
    (hnodup : (ops.map TransitionOp.transition).Nodup) :
    ∀ t ∈ ops.map TransitionOp.transition, ∀ sid : String,
      ((runCreates ops).outgoing sid).count t
          = (if sid = t.source.id then 1 else 0) ∧
      ((runCreates ops).incoming sid).count t
          = (if sid = t.target.id then 1 else 0) := by
  intro t ht sid
  have hc : (ops.map TransitionOp.transition).count t = 1 :=
    List.count_eq_one_of_mem hnodup ht
  have ho := foldl_create_outgoing_count ops AdjStore.empty t sid
  have hi := foldl_create_incoming_count ops AdjStore.empty t sid
  rw [hc] at ho hi
  simp only [AdjStore.empty, List.count_nil, Nat.zero_add] at ho hi
  exact ⟨ho, hi⟩

/-- Witness for C8 (amended) on the two-call sequence `createOpsW`:
the A→B transition sits exactly once in A's outgoing and once in B's
incoming list. -/
theorem create_transition_sequences_invariant_witness :
    ((runCreates createOpsW).outgoing "A").count op1W.transition = 1 ∧
    ((runCreates createOpsW).incoming "B").count op1W.transition = 1 := by
  have hA := create_transition_sequences_invariant createOpsW (by decide)
    op1W.transition (by decide) "A"
  have hB := create_transition_sequences_invariant createOpsW (by decide)
    op1W.transition (by decide) "B"
  refine ⟨?_, ?_⟩
  · rw [hA.1]
    rfl
  · rw [hB.2]
    rfl

end SMSpec
